import Mathlib

/-!
Verification of the BMP280 sensor driver (bmp280.py) against its
natural-language specification.

The driver is Python; its integers are unbounded, `x >> n` on an int is an
arithmetic (floor) shift, `x << n` multiplies by a power of two, and `//`
is floor division.  We embed those primitives over `Int` with `Int.fdiv`.
Python float results (true division such as `temp / 100` and
`p / 25600.0`) are modelled exactly over `ℚ`; the double-precision
rounding of the reference is far below every tolerance the spec states.
-/

/-- Python arithmetic right shift on an unbounded integer: floor division
by a power of two (sign-preserving). -/
def pyShr (x : Int) (n : Nat) : Int := Int.fdiv x (2 ^ n)

/-- Python left shift on an unbounded integer: multiplication by a power
of two. -/
def pyShl (x : Int) (n : Nat) : Int := x * 2 ^ n

/-- Python floor division on unbounded integers. -/
def pyFloorDiv (x y : Int) : Int := Int.fdiv x y

/-! Register-map and mode constants of class Bmp280 (bmp280.py lines 9-34). -/

def BMP280_CHIP_ID : Nat := 0x58
def MODE_SLEEP : Nat := 0x00
def MODE_FORCED : Nat := 0x02
def MODE_NORMAL : Nat := 0x03
def REG_CHIP_ID : Nat := 0xd0
def REG_RESET : Nat := 0xe0
def REG_STATUS : Nat := 0xf3
def REG_CTRL_MEAS : Nat := 0xf4
def REG_PRESS_MSB : Nat := 0xf7
def REG_CALIB_BASE : Nat := 0x88
def RESET_MAGIC : Nat := 0xb6
def BIT_UPDATING : Nat := 1
def BIT_MEASURING : Nat := 8

/-- Embedding of `Bmp280._compensate_temp` (bmp280.py lines 109-125).
Returns the pair (temperature in Celsius as an exact rational, t_fine).
Note the code multiplies `(adc_t >> 4) - dig_t1` by
`((adc_t >> 4) - dig_t1) >> 12`, i.e. it shifts one factor before the
product rather than shifting the square. -/
def compensate_temp (adc_t dig_t1 dig_t2 dig_t3 : Int) : ℚ × Int :=
  let var1 := pyShr ((pyShr adc_t 3 - pyShl dig_t1 1) * dig_t2) 11
  let var2 := pyShr ((pyShr adc_t 4 - dig_t1) * pyShr (pyShr adc_t 4 - dig_t1) 12 * dig_t3) 14
  let t_fine := var1 + var2
  let temp := pyShr (t_fine * 5 + 128) 8
  ((temp : ℚ) / 100, t_fine)

/-- Modelled from the spec, section 4.3 temperature pseudocode:
var2 squares `(raw >> 4) - dig_T1` and only then shifts the square right
by 12 before multiplying by dig_T3 (the datasheet reference algorithm). -/
def spec_compensate_temp (raw dig_T1 dig_T2 dig_T3 : Int) : ℚ × Int :=
  let var1 := pyShr ((pyShr raw 3 - pyShl dig_T1 1) * dig_T2) 11
  let var2 := pyShr (pyShr ((pyShr raw 4 - dig_T1) * (pyShr raw 4 - dig_T1)) 12 * dig_T3) 14
  let fineTemp := var1 + var2
  let temp := pyShr (fineTemp * 5 + 128) 8
  ((temp : ℚ) / 100, fineTemp)

/-- Embedding of `Bmp280._compensate_pressure` (bmp280.py lines 127-162).
All intermediates are unbounded integers; the single true division
`p / 25600.0` is modelled exactly over `ℚ`. -/
def compensate_pressure (adc_p t_fine dig_p1 dig_p2 dig_p3 dig_p4 dig_p5
    dig_p6 dig_p7 dig_p8 dig_p9 : Int) : ℚ :=
  let var1 := t_fine - 128000
  let var2 := var1 * var1 * dig_p6
  let var2 := var2 + pyShl (var1 * dig_p5) 17
  let var2 := var2 + pyShl dig_p4 35
  let var1 := pyShr (var1 * var1 * dig_p3) 8 + pyShl (var1 * dig_p2) 12
  let var1 := pyShr ((pyShl 1 47 + var1) * dig_p1) 33
  if var1 = 0 then 0
  else
    let p := 1048576 - adc_p
    let p := pyFloorDiv ((pyShl p 31 - var2) * 3125) var1
    let var1 := pyShr (dig_p9 * pyShr p 13 * pyShr p 13) 25
    let var2 := pyShr (dig_p8 * p) 19
    let p := pyShr (p + var1 + var2) 8 + pyShl dig_p7 4
    (p : ℚ) / 25600

/-- Modelled from the spec, section 4.3 pressure pseudocode, read with the
grouping used throughout that section: every shift applies to the whole
expression computed so far on its line, so the final step is
`((p + var1 + var2) >> 8) + (dig_P7 << 4)`; the division by var1 is floor
division as the spec requires; shifts are arithmetic on signed integers
of unbounded (hence at least 64-bit) range. -/
def spec_compensate_pressure (raw fineTemp dig_P1 dig_P2 dig_P3 dig_P4 dig_P5
    dig_P6 dig_P7 dig_P8 dig_P9 : Int) : ℚ :=
  let var1 := fineTemp - 128000
  let var2 := var1 * var1 * dig_P6 + pyShl (var1 * dig_P5) 17 + pyShl dig_P4 35
  let var1 := pyShr (var1 * var1 * dig_P3) 8 + pyShl (var1 * dig_P2) 12
  let var1 := pyShr ((pyShl 1 47 + var1) * dig_P1) 33
  if var1 = 0 then 0
  else
    let p := 1048576 - raw
    let p := pyFloorDiv ((pyShl p 31 - var2) * 3125) var1
    let var1 := pyShr (dig_P9 * pyShr p 13 * pyShr p 13) 25
    let var2 := pyShr (dig_P8 * p) 19
    let p := pyShr (p + var1 + var2) 8 + pyShl dig_P7 4
    (p : ℚ) / 25600

/-- Value of var1 at the division-by-zero guard of `_compensate_pressure`
(bmp280.py lines 143-151). -/
def pressure_var1_guard (t_fine dig_p1 dig_p2 dig_p3 : Int) : Int :=
  let var1 := t_fine - 128000
  let var1 := pyShr (var1 * var1 * dig_p3) 8 + pyShl (var1 * dig_p2) 12
  pyShr ((pyShl 1 47 + var1) * dig_p1) 33

/-- Celsius component of `compensate_temp` as the exact rational image of
the scaled integer temperature, by definition. -/
lemma compensate_temp_fst (a t1 t2 t3 : Int) :
    (compensate_temp a t1 t2 t3).1 =
      ((pyShr ((compensate_temp a t1 t2 t3).2 * 5 + 128) 8 : Int) : ℚ) / 100 := rfl

/-- Celsius component of `spec_compensate_temp` as the exact rational
image of the scaled integer temperature, by definition. -/
lemma spec_compensate_temp_fst (a t1 t2 t3 : Int) :
    (spec_compensate_temp a t1 t2 t3).1 =
      ((pyShr ((spec_compensate_temp a t1 t2 t3).2 * 5 + 128) 8 : Int) : ℚ) / 100 := rfl

/-- C1: the spec's section 4.3 temperature algorithm (which squares
`(raw>>4) - dig_T1` before the shift by 12) does reproduce the datasheet
reference vector: fineTemp 128422 and 25.08 Celsius. This is the behaviour
the claim requires of `_compensate_temp`. -/
theorem spec_temp_datasheet_vector :
    (spec_compensate_temp 519888 27504 26435 (-1000)).2 = 128422 ∧
    (spec_compensate_temp 519888 27504 26435 (-1000)).1 = (2508 : ℚ) / 100 := by
  have h2 : (spec_compensate_temp 519888 27504 26435 (-1000)).2 = 128422 := by decide
  refine ⟨h2, ?_⟩
  rw [spec_compensate_temp_fst, h2, show pyShr (128422 * 5 + 128) 8 = (2508 : Int) by decide]
  norm_num

/-- C1: evaluation of the code's `_compensate_temp` at the claim's
datasheet reference input dig_T1 = 27504, dig_T2 = 26435, dig_T3 = -1000,
adc_t = 519888. The code returns t_fine = 128488 (not the required
128422) and 25.10 Celsius, which is not within 0.01 of 25.08: the code
shifts one factor of the var2 square by 12 before multiplying instead of
shifting the square, so the claim fails on the code. -/
theorem compensate_temp_datasheet_mismatch :
    (compensate_temp 519888 27504 26435 (-1000)).2 = 128488 ∧
    (compensate_temp 519888 27504 26435 (-1000)).2 ≠ 128422 ∧
    (compensate_temp 519888 27504 26435 (-1000)).1 = (2510 : ℚ) / 100 ∧
    ¬ |(compensate_temp 519888 27504 26435 (-1000)).1 - 2508 / 100| ≤ 1 / 100 := by
  have h2 : (compensate_temp 519888 27504 26435 (-1000)).2 = 128488 := by decide
  have h1 : (compensate_temp 519888 27504 26435 (-1000)).1 = (2510 : ℚ) / 100 := by
    rw [compensate_temp_fst, h2, show pyShr (128488 * 5 + 128) 8 = (2510 : Int) by decide]
    norm_num
  refine ⟨h2, by decide, h1, ?_⟩
  rw [h1]
  norm_num
  rw [abs_of_pos] <;> norm_num

/-- C2: for every raw 20-bit pressure ADC code, every fineTemp, and
coefficients dig_P1 unsigned 16-bit and dig_P2..dig_P9 signed 16-bit,
the code's `_compensate_pressure` computes exactly the spec's section 4.3
fixed-point pressure algorithm (floor division by var1, arithmetic shifts
on unbounded signed integers, final step ((p+var1+var2)>>8) + (dig_P7<<4),
result p / 25600). -/
theorem compensate_pressure_matches_spec
    (adc_p t_fine p1 p2 p3 p4 p5 p6 p7 p8 p9 : Int)
    (hadc : 0 ≤ adc_p ∧ adc_p < 2 ^ 20)
    (hp1 : 0 ≤ p1 ∧ p1 < 2 ^ 16)
    (hp2 : -(2 ^ 15) ≤ p2 ∧ p2 < 2 ^ 15) (hp3 : -(2 ^ 15) ≤ p3 ∧ p3 < 2 ^ 15)
    (hp4 : -(2 ^ 15) ≤ p4 ∧ p4 < 2 ^ 15) (hp5 : -(2 ^ 15) ≤ p5 ∧ p5 < 2 ^ 15)
    (hp6 : -(2 ^ 15) ≤ p6 ∧ p6 < 2 ^ 15) (hp7 : -(2 ^ 15) ≤ p7 ∧ p7 < 2 ^ 15)
    (hp8 : -(2 ^ 15) ≤ p8 ∧ p8 < 2 ^ 15) (hp9 : -(2 ^ 15) ≤ p9 ∧ p9 < 2 ^ 15) :
    compensate_pressure adc_p t_fine p1 p2 p3 p4 p5 p6 p7 p8 p9 =
      spec_compensate_pressure adc_p t_fine p1 p2 p3 p4 p5 p6 p7 p8 p9 := by
  rfl

/-- C2 witness: the claim's hypotheses hold and the conclusion follows at
the datasheet-style concrete input. -/
theorem compensate_pressure_matches_spec_witness :
    ((0 : Int) ≤ 415148 ∧ (415148 : Int) < 2 ^ 20) ∧
    compensate_pressure 415148 128422 36477 (-10685) 3024 2855 140 (-7) 15500
      (-14600) 6000 =
      spec_compensate_pressure 415148 128422 36477 (-10685) 3024 2855 140 (-7) 15500
      (-14600) 6000 :=
  ⟨by decide,
    compensate_pressure_matches_spec 415148 128422 36477 (-10685) 3024 2855 140 (-7)
      15500 (-14600) 6000 (by decide) (by decide) (by decide) (by decide) (by decide)
      (by decide) (by decide) (by decide) (by decide) (by decide)⟩

/-! Calibration-block parsing (bmp280.py lines 90-107). Each 16-bit word
is a little-endian byte pair; the loop computes the signed two's
complement value, and a second pass reinterprets words 0 and 3 (dig_T1,
dig_P1) as unsigned by adding 65536 to negative values. -/

/-- Embedding of one iteration of the word loop (bmp280.py lines 99-103):
sign = 1 if the high bit of the msb is set, value =
(((msb & 0x7f) << 8) | lsb) - sign * 32768. -/
def parse_word (lsb msb : Nat) : Int :=
  let sign : Int := if msb &&& 0x80 ≠ 0 then 1 else 0
  ((((msb &&& 0x7f) <<< 8) ||| lsb : Nat) : Int) - sign * 32768

/-- Embedding of the unsigned reinterpretation pass (bmp280.py lines
105-107): negative parsed values of words 0 and 3 gain 65536. -/
def to_unsigned (v : Int) : Int := if v < 0 then v + 65536 else v

/-- Embedding of the full calibration parse (bmp280.py lines 99-107):
twelve little-endian words from the first 24 block bytes, then the
unsigned reinterpretation of words 0 and 3. -/
def parse_calibration (data : List Nat) : List Int :=
  ((List.range 12).map fun w => parse_word data[2 * w]! data[2 * w + 1]!).mapIdx
    fun w v => if w = 0 ∨ w = 3 then to_unsigned v else v

/-- Modelled from the spec, section 8: the inverse of the unsigned
reinterpretation, removing the 65536 that was added to a negative word. -/
def undo_unsigned16 (v : Int) : Int := if 32768 ≤ v then v - 65536 else v

/-- Modelled from the spec, section 8: re-encode one signed 16-bit
coefficient as its little-endian two's-complement byte pair. -/
def encode_word (v : Int) : List Nat :=
  let u := (v % 65536).toNat
  [u % 256, u / 256]

/-- Modelled from the spec, section 8: re-encode the 12 parsed
coefficients back into little-endian byte pairs, with the unsigned
reinterpretation of words 0 and 3 undone. -/
def reencode_calibration (ws : List Int) : List Nat :=
  (ws.mapIdx fun w v =>
    encode_word (if w = 0 ∨ w = 3 then undo_unsigned16 v else v)).flatten

lemma shl8_or (h lsb : Nat) (hl : lsb < 256) : (h <<< 8) ||| lsb = h * 256 + lsb := by
  have hl2 : lsb < 2 ^ 8 := hl
  apply Nat.eq_of_testBit_eq
  intro i
  rw [Nat.testBit_lor, Nat.testBit_shiftLeft,
    show h * 256 + lsb = 2 ^ 8 * h + lsb by ring_nf,
    Nat.testBit_mul_pow_two_add h hl2 i]
  rcases Nat.lt_or_ge i 8 with hi | hi
  · simp [hi, Nat.not_le.mpr hi]
  · have hz : lsb.testBit i = false :=
      Nat.testBit_eq_false_of_lt (lt_of_lt_of_le hl2 (Nat.pow_le_pow_right (by norm_num) hi))
    simp [hi, Nat.not_lt.mpr hi, hz]

lemma and128_iff (m : Nat) (h : m < 256) : (m &&& 0x80 ≠ 0) ↔ 128 ≤ m := by
  have h7 : m.testBit 7 = decide (128 ≤ m) := by
    rw [Nat.testBit_to_div_mod]
    have h128 : (2 : Nat) ^ 7 = 128 := by norm_num
    rw [h128]
    by_cases hm : 128 ≤ m
    · have hq : m / 128 = 1 := by omega
      simp [hq, hm]
    · have hq : m / 128 = 0 := by omega
      simp [hq, hm]
  have ha : m &&& 0x80 = (m.testBit 7).toNat * 128 := by
    have := Nat.and_two_pow m 7
    norm_num at this ⊢
    exact this
  rw [ha, h7]
  by_cases hm : 128 ≤ m <;> simp [hm]

/-- Arithmetic form of `parse_word` for in-range bytes. -/
lemma parse_word_arith (lsb msb : Nat) (hl : lsb < 256) (hm : msb < 256) :
    parse_word lsb msb =
      ((msb % 128 : Nat) : Int) * 256 + (lsb : Int) -
        (if 128 ≤ msb then (32768 : Int) else 0) := by
  unfold parse_word
  have h7 : msb &&& 0x7f = msb % 128 := by
    have := Nat.and_pow_two_sub_one_eq_mod msb 7
    norm_num at this ⊢
    exact this
  rw [h7, shl8_or _ _ hl]
  by_cases hc : 128 ≤ msb
  · simp only [(and128_iff msb hm).symm] at hc ⊢
    simp [hc]
  · simp only [(and128_iff msb hm).symm] at hc ⊢
    simp [hc]

/-- Roundtrip of a plain signed word. -/
lemma plain_word_roundtrip (lsb msb : Nat) (hl : lsb < 256) (hm : msb < 256) :
    encode_word (parse_word lsb msb) = [lsb, msb] := by
  rw [parse_word_arith lsb msb hl hm]
  unfold encode_word
  have hmod : msb % 128 < 128 := Nat.mod_lt _ (by norm_num)
  by_cases hc : 128 ≤ msb <;>
    simp only [hc, if_true, if_false, List.cons.injEq, and_true] <;>
    constructor <;> omega

/-- Roundtrip of a word that went through the unsigned reinterpretation. -/
lemma unsigned_word_roundtrip (lsb msb : Nat) (hl : lsb < 256) (hm : msb < 256) :
    encode_word (undo_unsigned16 (to_unsigned (parse_word lsb msb))) = [lsb, msb] := by
  rw [parse_word_arith lsb msb hl hm]
  unfold to_unsigned undo_unsigned16 encode_word
  have hmod : msb % 128 < 128 := Nat.mod_lt _ (by norm_num)
  by_cases hc : 128 ≤ msb <;>
    simp only [hc, if_true, if_false] <;>
    split_ifs <;>
    simp only [List.cons.injEq, and_true] <;>
    constructor <;> omega

/-- C4: for every 26-byte calibration block whose bytes at offsets 24 and
25 are zero, re-encoding the 12 parsed coefficients back into
little-endian byte pairs (undoing the unsigned reinterpretation of words
0 and 3) reproduces the original first 24 bytes; the parse itself is a
function, hence deterministic. -/
theorem parse_calibration_roundtrip
    (b0 b1 b2 b3 b4 b5 b6 b7 b8 b9 b10 b11 b12 b13 b14 b15 b16 b17 b18 b19
      b20 b21 b22 b23 b24 b25 : Nat)
    (hb : ∀ b ∈ [b0, b1, b2, b3, b4, b5, b6, b7, b8, b9, b10, b11, b12, b13,
      b14, b15, b16, b17, b18, b19, b20, b21, b22, b23, b24, b25], b < 256)
    (h24 : b24 = 0) (h25 : b25 = 0) :
    reencode_calibration (parse_calibration [b0, b1, b2, b3, b4, b5, b6, b7,
        b8, b9, b10, b11, b12, b13, b14, b15, b16, b17, b18, b19, b20, b21,
        b22, b23, b24, b25]) =
      List.take 24 [b0, b1, b2, b3, b4, b5, b6, b7, b8, b9, b10, b11, b12,
        b13, b14, b15, b16, b17, b18, b19, b20, b21, b22, b23, b24, b25] := by
  simp only [List.mem_cons, List.not_mem_nil, or_false, forall_eq_or_imp, forall_eq] at hb
  obtain ⟨h0, h1, h2, h3, h4, h5, h6, h7, h8, h9, h10, h11, h12, h13, h14,
    h15, h16, h17, h18, h19, h20, h21, h22, h23, -, -⟩ := hb
  have key : parse_calibration [b0, b1, b2, b3, b4, b5, b6, b7, b8, b9, b10,
      b11, b12, b13, b14, b15, b16, b17, b18, b19, b20, b21, b22, b23, b24, b25] =
      [to_unsigned (parse_word b0 b1), parse_word b2 b3, parse_word b4 b5,
       to_unsigned (parse_word b6 b7), parse_word b8 b9, parse_word b10 b11,
       parse_word b12 b13, parse_word b14 b15, parse_word b16 b17,
       parse_word b18 b19, parse_word b20 b21, parse_word b22 b23] := rfl
  rw [key]
  have key2 : reencode_calibration
      [to_unsigned (parse_word b0 b1), parse_word b2 b3, parse_word b4 b5,
       to_unsigned (parse_word b6 b7), parse_word b8 b9, parse_word b10 b11,
       parse_word b12 b13, parse_word b14 b15, parse_word b16 b17,
       parse_word b18 b19, parse_word b20 b21, parse_word b22 b23] =
      List.flatten
        [encode_word (undo_unsigned16 (to_unsigned (parse_word b0 b1))),
         encode_word (parse_word b2 b3), encode_word (parse_word b4 b5),
         encode_word (undo_unsigned16 (to_unsigned (parse_word b6 b7))),
         encode_word (parse_word b8 b9), encode_word (parse_word b10 b11),
         encode_word (parse_word b12 b13), encode_word (parse_word b14 b15),
         encode_word (parse_word b16 b17), encode_word (parse_word b18 b19),
         encode_word (parse_word b20 b21), encode_word (parse_word b22 b23)] := rfl
  rw [key2, unsigned_word_roundtrip b0 b1 h0 h1, unsigned_word_roundtrip b6 b7 h6 h7,
    plain_word_roundtrip b2 b3 h2 h3, plain_word_roundtrip b4 b5 h4 h5,
    plain_word_roundtrip b8 b9 h8 h9, plain_word_roundtrip b10 b11 h10 h11,
    plain_word_roundtrip b12 b13 h12 h13, plain_word_roundtrip b14 b15 h14 h15,
    plain_word_roundtrip b16 b17 h16 h17, plain_word_roundtrip b18 b19 h18 h19,
    plain_word_roundtrip b20 b21 h20 h21, plain_word_roundtrip b22 b23 h22 h23]
  rfl

/-- C4 witness: the roundtrip at the datasheet-style block holding
dig_T1 = 27504 (0x6B70, unsigned word) and dig_T3 = -1000 (0xFC18). -/
theorem parse_calibration_roundtrip_witness :
    (∀ b ∈ [0x70, 0x6b, 0x43, 0x67, 0x18, 0xfc, 0x7d, 0x8e, 0x43, 0xd6,
      0xd0, 0x0b, 0x27, 0x0b, 0x8c, 0x00, 0xf9, 0xff, 0x8c, 0x3c, 0xf8,
      0xc6, 0x70, 0x17, 0, 0], b < 256) ∧
    reencode_calibration (parse_calibration [0x70, 0x6b, 0x43, 0x67, 0x18,
        0xfc, 0x7d, 0x8e, 0x43, 0xd6, 0xd0, 0x0b, 0x27, 0x0b, 0x8c, 0x00,
        0xf9, 0xff, 0x8c, 0x3c, 0xf8, 0xc6, 0x70, 0x17, 0, 0]) =
      List.take 24 [0x70, 0x6b, 0x43, 0x67, 0x18, 0xfc, 0x7d, 0x8e, 0x43,
        0xd6, 0xd0, 0x0b, 0x27, 0x0b, 0x8c, 0x00, 0xf9, 0xff, 0x8c, 0x3c,
        0xf8, 0xc6, 0x70, 0x17, 0, 0] :=
  ⟨by decide,
    parse_calibration_roundtrip 0x70 0x6b 0x43 0x67 0x18 0xfc 0x7d 0x8e 0x43
      0xd6 0xd0 0x0b 0x27 0x0b 0x8c 0x00 0xf9 0xff 0x8c 0x3c 0xf8 0xc6 0x70
      0x17 0 0 (by decide) rfl rfl⟩

/-! Driver state and the power-mode state machine. Bus traffic is made
explicit: each operation returns the list of register writes it performed
as (register, value) pairs, and reads are answered from a response script
so that faults and asynchronous status bits can be modelled. -/

/-- Driver-held state of class Bmp280 (bmp280.py lines 36-65, the
attributes set by the constructor; the external bus handle itself is the
bus port and stays outside the model). -/
structure Bmp280 where
  address : Nat
  calibration_data : List Int
  power_mode : Nat
  oversampling_temp : Nat
  oversampling_press : Nat
  temperature : ℚ
  pressure : ℚ
  time : ℚ
deriving Repr

/-- State assembled by `__init__` before `_initialize_chip` runs
(bmp280.py lines 42-65): 12 zero calibration words, tracked power mode
FORCED, oversampling 1/1, zeroed measurement. -/
def initial_state (address : Nat) : Bmp280 :=
  { address := address
    calibration_data := List.replicate 12 0
    power_mode := MODE_FORCED
    oversampling_temp := 1
    oversampling_press := 1
    temperature := 0
    pressure := 0
    time := 0 }

/-- Errors raised by the driver (ValueError raise sites in bmp280.py;
names follow the spec's error taxonomy in section 7). -/
inductive DriverErr
  | invalidPowerMode
  | chipIdMismatch (observed : Nat)
  | invalidCalibrationData (byteIdx : Nat)
deriving Repr, DecidableEq

/-- Embedding of `Bmp280.set_mode` (bmp280.py lines 164-192). Returns the
updated state, the control-register writes performed, and the error if
the requested mode is unsupported. The early return fires when the
requested mode equals the tracked mode; FORCED writes the SLEEP code with
the oversampling bits; the tracked mode is assigned only after a write. -/
def set_mode (st : Bmp280) (mode : Nat) :
    Bmp280 × List (Nat × Nat) × Option DriverErr :=
  if mode = st.power_mode then (st, [], none)
  else if mode = MODE_FORCED then
    let meas := (st.oversampling_temp <<< 5) ||| (st.oversampling_press <<< 2) ||| MODE_SLEEP
    ({ st with power_mode := mode }, [(REG_CTRL_MEAS, meas)], none)
  else if mode = MODE_NORMAL then
    let meas := (st.oversampling_temp <<< 5) ||| (st.oversampling_press <<< 2) ||| MODE_NORMAL
    ({ st with power_mode := mode }, [(REG_CTRL_MEAS, meas)], none)
  else (st, [], some .invalidPowerMode)

/-- C3 counterexample: with the tracked mode already FORCED (the state the
constructor produces), two consecutive setMode(FORCED) calls perform zero
control-register writes, not exactly one: both calls take the no-op early
return, so the claim fails for this driver state. -/
theorem set_mode_twice_counterexample :
    ¬ ((set_mode (initial_state 0x77) MODE_FORCED).2.1.length +
        (set_mode (set_mode (initial_state 0x77) MODE_FORCED).1 MODE_FORCED).2.1.length
        = 1) := by
  decide

/-- C3 as amended: for a mode in {FORCED, NORMAL}, two consecutive
setMode calls with that mode perform exactly one register write when the
tracked mode initially differs (the first call writes once, the second is
a no-op) and zero writes when it already matches (both are no-ops). -/
theorem set_mode_twice_amended (st : Bmp280) (m : Nat)
    (hm : m = MODE_FORCED ∨ m = MODE_NORMAL) :
    (set_mode (set_mode st m).1 m).2.1 = [] ∧
    (st.power_mode ≠ m → (set_mode st m).2.1.length = 1) ∧
    (st.power_mode = m → (set_mode st m).2.1 = []) := by
  by_cases h : m = st.power_mode
  · simp [set_mode, h]
  · rcases hm with rfl | rfl
    · have h2 : ¬ (2 : Nat) = st.power_mode := h
      refine ⟨?_, fun _ => ?_, fun hc => absurd hc.symm h⟩ <;>
        simp [set_mode, h2, MODE_FORCED, MODE_NORMAL, MODE_SLEEP]
    · have h2 : ¬ (3 : Nat) = st.power_mode := h
      refine ⟨?_, fun _ => ?_, fun hc => absurd hc.symm h⟩ <;>
        simp [set_mode, h2, MODE_FORCED, MODE_NORMAL, MODE_SLEEP]

/-- C3 witness: from the constructor state (tracked mode FORCED), two
setMode(NORMAL) calls in a row: the first writes once, the second writes
nothing. -/
theorem set_mode_twice_amended_witness :
    (MODE_NORMAL = MODE_FORCED ∨ MODE_NORMAL = MODE_NORMAL) ∧
    (set_mode (set_mode (initial_state 0x77) MODE_NORMAL).1 MODE_NORMAL).2.1 = [] ∧
    ((initial_state 0x77).power_mode ≠ MODE_NORMAL →
      (set_mode (initial_state 0x77) MODE_NORMAL).2.1.length = 1) :=
  ⟨Or.inr rfl,
    (set_mode_twice_amended (initial_state 0x77) MODE_NORMAL (Or.inr rfl)).1,
    (set_mode_twice_amended (initial_state 0x77) MODE_NORMAL (Or.inr rfl)).2.1⟩

/-- C8: in any state whose tracked mode is FORCED or NORMAL (the
invariant of C10), requesting any mode other than FORCED and NORMAL
(SLEEP included) fails with InvalidPowerMode, performs no register write,
and leaves the state unchanged, so the tracked mode is updated only after
a successful control-register write. -/
theorem set_mode_invalid_mode (st : Bmp280) (m : Nat)
    (hpm : st.power_mode = MODE_FORCED ∨ st.power_mode = MODE_NORMAL)
    (hf : m ≠ MODE_FORCED) (hn : m ≠ MODE_NORMAL) :
    set_mode st m = (st, [], some .invalidPowerMode) := by
  have hne : ¬ m = st.power_mode := by
    rcases hpm with h | h <;> rw [h] <;> assumption
  simp [set_mode, hne, hf, hn]

/-- C8 witness: requesting SLEEP from the constructor state fails with
InvalidPowerMode and changes nothing. -/
theorem set_mode_invalid_mode_witness :
    ((initial_state 0x77).power_mode = MODE_FORCED ∨
      (initial_state 0x77).power_mode = MODE_NORMAL) ∧
    set_mode (initial_state 0x77) MODE_SLEEP =
      (initial_state 0x77, [], some .invalidPowerMode) :=
  ⟨Or.inl rfl,
    set_mode_invalid_mode (initial_state 0x77) MODE_SLEEP (Or.inl rfl)
      (by decide) (by decide)⟩

/-! Bus port model. Reads and writes are answered from a response script:
`ack` answers a register write, `byte` a single-register read, `block` a
burst read, and `fault` makes the bus operation raise. `stuck` marks a
script that does not match the protocol shape (for example a polling loop
that never sees its exit condition before the script ends); it is a model
artifact, not a driver behaviour. -/

inductive Resp
  | ack
  | byte (n : Nat)
  | block (bs : List Nat)
  | fault
deriving Repr, DecidableEq

inductive BusRead (α : Type)
  | ok (a : α) (rest : List Resp)
  | fault
  | stuck

/-- Outcome of one register write against the script. -/
def writeR : List Resp → BusRead Unit
  | .ack :: rest => .ok () rest
  | .fault :: _ => .fault
  | _ => .stuck

/-- Outcome of one byte-register read against the script. -/
def readByteR : List Resp → BusRead Nat
  | .byte n :: rest => .ok n rest
  | .fault :: _ => .fault
  | _ => .stuck

/-- Outcome of one burst read of the given length against the script. -/
def readBlockR (len : Nat) : List Resp → BusRead (List Nat)
  | .block bs :: rest => if bs.length = len then .ok bs rest else .stuck
  | .fault :: _ => .fault
  | _ => .stuck

/-- Polling loop shared by the driver's busy-waits: read a byte register,
exit when the condition holds, otherwise read again. -/
def pollUntil (exitCond : Nat → Bool) : List Resp → BusRead Unit
  | .byte n :: rest => if exitCond n then .ok () rest else pollUntil exitCond rest
  | .fault :: _ => .fault
  | _ => .stuck

/-- Outcome of `_initialize_chip`: success, a raised driver error, a
propagated bus fault, or a script mismatch. The carried state is the
driver state at that moment. -/
inductive InitOutcome
  | ok (st : Bmp280)
  | err (e : DriverErr) (st : Bmp280)
  | fault (st : Bmp280)
  | stuck

/-- Embedding of `Bmp280._initialize_chip` (bmp280.py lines 69-107):
soft-reset write, poll the status register until the update bit clears,
read and check the chip id, burst-read the 26-byte calibration block,
check bytes 24 and 25, and only then commit the parsed calibration data.
Returns the outcome and the performed register writes. -/
def initialize_chip (st : Bmp280) (resps : List Resp) :
    InitOutcome × List (Nat × Nat) :=
  match writeR resps with
  | .fault => (.fault st, [(REG_RESET, RESET_MAGIC)])
  | .stuck => (.stuck, [(REG_RESET, RESET_MAGIC)])
  | .ok _ r1 =>
    match pollUntil (fun status => status &&& BIT_UPDATING == 0) r1 with
    | .fault => (.fault st, [(REG_RESET, RESET_MAGIC)])
    | .stuck => (.stuck, [(REG_RESET, RESET_MAGIC)])
    | .ok _ r2 =>
      match readByteR r2 with
      | .fault => (.fault st, [(REG_RESET, RESET_MAGIC)])
      | .stuck => (.stuck, [(REG_RESET, RESET_MAGIC)])
      | .ok chip_id r3 =>
        if chip_id ≠ BMP280_CHIP_ID then
          (.err (.chipIdMismatch chip_id) st, [(REG_RESET, RESET_MAGIC)])
        else
          match readBlockR 26 r3 with
          | .fault => (.fault st, [(REG_RESET, RESET_MAGIC)])
          | .stuck => (.stuck, [(REG_RESET, RESET_MAGIC)])
          | .ok calibration_data _ =>
            if calibration_data[24]! ≠ 0 then
              (.err (.invalidCalibrationData 24) st, [(REG_RESET, RESET_MAGIC)])
            else if calibration_data[25]! ≠ 0 then
              (.err (.invalidCalibrationData 25) st, [(REG_RESET, RESET_MAGIC)])
            else
              (.ok { st with calibration_data := parse_calibration calibration_data },
                [(REG_RESET, RESET_MAGIC)])

/-- Outcome of `do_measure`: success, a propagated bus fault (carrying
the driver state at that moment), or a script mismatch. -/
inductive MeasOutcome
  | ok (st : Bmp280)
  | fault (st : Bmp280)
  | stuck

/-- Embedding of the unconditional part of `Bmp280.do_measure`
(bmp280.py lines 211-228): poll the status register until the measuring
bit clears, burst-read the six data bytes, reassemble the raw 20-bit
codes, compensate temperature then pressure, and store temperature,
pressure, and the timestamp. The writes performed so far are threaded
through unchanged. -/
def measure_tail (st : Bmp280) (now : ℚ) (w : List (Nat × Nat))
    (r1 : List Resp) : MeasOutcome × List (Nat × Nat) :=
  match pollUntil (fun status => status &&& BIT_MEASURING == 0) r1 with
  | .fault => (.fault st, w)
  | .stuck => (.stuck, w)
  | .ok _ r2 =>
    match readBlockR 6 r2 with
    | .fault => (.fault st, w)
    | .stuck => (.stuck, w)
    | .ok data _ =>
      let raw_pressure := (data[0]! <<< 12) ||| (data[1]! <<< 4) ||| (data[2]! >>> 4)
      let raw_temperature := (data[3]! <<< 12) ||| (data[4]! <<< 4) ||| (data[5]! >>> 4)
      let tp := compensate_temp (raw_temperature : Int) st.calibration_data[0]!
        st.calibration_data[1]! st.calibration_data[2]!
      let press := compensate_pressure (raw_pressure : Int) tp.2
        st.calibration_data[3]! st.calibration_data[4]! st.calibration_data[5]!
        st.calibration_data[6]! st.calibration_data[7]! st.calibration_data[8]!
        st.calibration_data[9]! st.calibration_data[10]! st.calibration_data[11]!
      (.ok { st with temperature := tp.1, pressure := press, time := now }, w)

/-- Embedding of `Bmp280.do_measure` (bmp280.py lines 194-228). If the
tracked mode is FORCED, write the control register with the FORCED code
and poll it until the low two mode bits clear; then run the shared tail:
status poll, burst read, compensation, and the Measurement update. -/
def do_measure (st : Bmp280) (now : ℚ) (resps : List Resp) :
    MeasOutcome × List (Nat × Nat) :=
  if st.power_mode = MODE_FORCED then
    let meas := (st.oversampling_temp <<< 5) ||| (st.oversampling_press <<< 2) ||| MODE_FORCED
    match writeR resps with
    | .fault => (.fault st, [(REG_CTRL_MEAS, meas)])
    | .stuck => (.stuck, [(REG_CTRL_MEAS, meas)])
    | .ok _ r =>
      match pollUntil (fun m => m &&& 0x3 == 0) r with
      | .fault => (.fault st, [(REG_CTRL_MEAS, meas)])
      | .stuck => (.stuck, [(REG_CTRL_MEAS, meas)])
      | .ok _ r1 => measure_tail st now [(REG_CTRL_MEAS, meas)] r1
  else measure_tail st now [] resps

/-- C5: for every 26-byte calibration block with a nonzero byte at offset
24 or 25, initialization fails with InvalidCalibrationData after the
soft-reset write, and the returned state is the caller's state unchanged:
no calibration data is committed. The script answers the reset write,
reports a ready status, the correct chip id, and then the given block. -/
theorem initialize_invalid_calibration (st : Bmp280) (block : List Nat)
    (hlen : block.length = 26)
    (hbad : block[24]! ≠ 0 ∨ block[25]! ≠ 0) :
    initialize_chip st [.ack, .byte 0, .byte BMP280_CHIP_ID, .block block] =
      (.err (.invalidCalibrationData (if block[24]! ≠ 0 then 24 else 25)) st,
        [(REG_RESET, RESET_MAGIC)]) := by
  by_cases h24 : block[24]! = 0
  · have h25 : block[25]! ≠ 0 := by tauto
    simp [initialize_chip, writeR, pollUntil, readByteR, readBlockR,
      BIT_UPDATING, BMP280_CHIP_ID, hlen, h24, h25]
  · simp [initialize_chip, writeR, pollUntil, readByteR, readBlockR,
      BIT_UPDATING, BMP280_CHIP_ID, hlen, h24]

/-- C5 witness: a block whose byte 24 is 1 makes initialization fail with
InvalidCalibrationData, leaving the constructor state untouched. -/
theorem initialize_invalid_calibration_witness :
    (([0, 0, 0, 0, 0, 0, 0, 0, 0, 0, 0, 0, 0, 0, 0, 0, 0, 0, 0, 0, 0, 0, 0,
        0, 1, 0] : List Nat).length = 26) ∧
    initialize_chip (initial_state 0x77)
        [.ack, .byte 0, .byte BMP280_CHIP_ID,
          .block [0, 0, 0, 0, 0, 0, 0, 0, 0, 0, 0, 0, 0, 0, 0, 0, 0, 0, 0,
            0, 0, 0, 0, 0, 1, 0]] =
      (.err (.invalidCalibrationData
          (if ([0, 0, 0, 0, 0, 0, 0, 0, 0, 0, 0, 0, 0, 0, 0, 0, 0, 0, 0, 0,
            0, 0, 0, 0, 1, 0] : List Nat)[24]! ≠ 0 then 24 else 25))
        (initial_state 0x77),
        [(REG_RESET, RESET_MAGIC)]) :=
  ⟨rfl,
    initialize_invalid_calibration (initial_state 0x77)
      [0, 0, 0, 0, 0, 0, 0, 0, 0, 0, 0, 0, 0, 0, 0, 0, 0, 0, 0, 0, 0, 0, 0,
        0, 1, 0] rfl (Or.inl (by decide))⟩

/-- Guard lemma: when var1 is zero at the guard, pressure compensation
returns the 0 sentinel (bmp280.py lines 151-152). -/
lemma compensate_pressure_of_guard_zero
    (adc_p t_fine p1 p2 p3 p4 p5 p6 p7 p8 p9 : Int)
    (h : pressure_var1_guard t_fine p1 p2 p3 = 0) :
    compensate_pressure adc_p t_fine p1 p2 p3 p4 p5 p6 p7 p8 p9 = 0 := by
  simp only [pressure_var1_guard] at h
  simp only [compensate_pressure]
  rw [if_pos h]

/-- Response script for one `do_measure` run in which every readiness
poll succeeds immediately and the burst read returns the given bytes. -/
def meas_script (st : Bmp280) (data : List Nat) : List Resp :=
  (if st.power_mode = MODE_FORCED then [Resp.ack, Resp.byte 0] else []) ++
    [Resp.byte 0, Resp.block data]

/-- C6: whenever the pressure-compensation guard var1 evaluates to zero
for the conversion's fine temperature, a successful `do_measure` stores
pressure 0 (no exception is modelled: the outcome is ok), while the
temperature field is still populated normally from the same conversion's
raw temperature code, and the timestamp is taken. -/
theorem do_measure_zero_var1 (st : Bmp280) (now : ℚ) (data : List Nat)
    (hlen : data.length = 6)
    (hguard : pressure_var1_guard
        (compensate_temp
          (((data[3]! <<< 12) ||| (data[4]! <<< 4) ||| (data[5]! >>> 4) : Nat) : Int)
          st.calibration_data[0]! st.calibration_data[1]! st.calibration_data[2]!).2
        st.calibration_data[3]! st.calibration_data[4]! st.calibration_data[5]! = 0) :
    ∃ w, do_measure st now (meas_script st data) =
      (.ok { st with
        temperature := (compensate_temp
          (((data[3]! <<< 12) ||| (data[4]! <<< 4) ||| (data[5]! >>> 4) : Nat) : Int)
          st.calibration_data[0]! st.calibration_data[1]! st.calibration_data[2]!).1,
        pressure := 0,
        time := now }, w) := by
  by_cases hm : st.power_mode = MODE_FORCED
  · refine ⟨[(REG_CTRL_MEAS,
      (st.oversampling_temp <<< 5) ||| (st.oversampling_press <<< 2) ||| MODE_FORCED)], ?_⟩
    simp [do_measure, measure_tail, meas_script, hm, writeR, pollUntil, readBlockR,
      BIT_MEASURING, hlen,
      compensate_pressure_of_guard_zero _ _ _ _ _ _ _ _ _ _ _ hguard]
  · refine ⟨[], ?_⟩
    simp [do_measure, measure_tail, meas_script, hm, writeR, pollUntil, readBlockR,
      BIT_MEASURING, hlen,
      compensate_pressure_of_guard_zero _ _ _ _ _ _ _ _ _ _ _ hguard]

/-- C6 witness: constructor state (all-zero calibration, hence guard var1
is zero since dig_P1 = 0) with an all-zero data block: pressure reads 0,
temperature is stored from the temperature compensation. -/
theorem do_measure_zero_var1_witness :
    (([0, 0, 0, 0, 0, 0] : List Nat).length = 6) ∧
    ∃ w, do_measure (initial_state 0x77) 0
        (meas_script (initial_state 0x77) [0, 0, 0, 0, 0, 0]) =
      (.ok { initial_state 0x77 with
        temperature := (compensate_temp
          ((((0 : Nat) <<< 12) ||| ((0 : Nat) <<< 4) ||| ((0 : Nat) >>> 4) : Nat) : Int)
          (initial_state 0x77).calibration_data[0]!
          (initial_state 0x77).calibration_data[1]!
          (initial_state 0x77).calibration_data[2]!).1,
        pressure := 0,
        time := 0 }, w) :=
  ⟨rfl, do_measure_zero_var1 (initial_state 0x77) 0 [0, 0, 0, 0, 0, 0] rfl (by decide)⟩

/-- State carried by a fault outcome of the measurement tail is the
caller's state: the assignments happen only in the success arm. -/
lemma measure_tail_fault_state (st : Bmp280) (now : ℚ) (w : List (Nat × Nat))
    (r1 : List Resp) (st₁ : Bmp280) (w₁ : List (Nat × Nat))
    (h : measure_tail st now w r1 = (.fault st₁, w₁)) : st₁ = st := by
  unfold measure_tail at h
  repeat' split at h
  all_goals cases h <;> rfl

/-- Write log returned by the measurement tail is exactly the writes
threaded into it: the tail performs only reads. -/
lemma measure_tail_writes (st : Bmp280) (now : ℚ) (w : List (Nat × Nat))
    (r1 : List Resp) : (measure_tail st now w r1).2 = w := by
  unfold measure_tail
  repeat' split
  all_goals rfl

/-- State carried by any ok or fault outcome of the measurement tail has
the caller's power mode: the tail never touches it. -/
lemma measure_tail_power (st : Bmp280) (now : ℚ) (w : List (Nat × Nat))
    (r1 : List Resp) (st₁ : Bmp280) (w₁ : List (Nat × Nat))
    (h : measure_tail st now w r1 = (.ok st₁, w₁) ∨
      measure_tail st now w r1 = (.fault st₁, w₁)) :
    st₁.power_mode = st.power_mode := by
  unfold measure_tail at h
  rcases h with h | h <;> (repeat' split at h) <;> (cases h <;> simp)

/-- C7: a bus fault (read or write error) at any step of `do_measure`
propagates as a fault outcome whose carried state still holds the
previous temperature, pressure, and timestamp: the stored Measurement is
unchanged because the driver assigns it only after the last bus
operation. -/
theorem do_measure_fault_keeps_measurement (st : Bmp280) (now : ℚ)
    (resps : List Resp) (st₁ : Bmp280) (w : List (Nat × Nat))
    (hf : do_measure st now resps = (.fault st₁, w)) :
    st₁.temperature = st.temperature ∧ st₁.pressure = st.pressure ∧
      st₁.time = st.time := by
  have hst : st₁ = st := by
    unfold do_measure at hf
    by_cases hm : st.power_mode = MODE_FORCED
    · rw [if_pos hm] at hf
      repeat' split at hf
      all_goals first
        | exact measure_tail_fault_state _ _ _ _ _ _ hf
        | (cases hf <;> rfl)
    · rw [if_neg hm] at hf
      exact measure_tail_fault_state _ _ _ _ _ _ hf
  subst hst
  exact ⟨rfl, rfl, rfl⟩

/-- C7 witness: a fault on the very first bus operation (the forced-mode
control write) propagates and preserves the measurement fields. -/
theorem do_measure_fault_keeps_measurement_witness :
    do_measure (initial_state 0x77) 0 [.fault] =
      (.fault (initial_state 0x77), [(REG_CTRL_MEAS, 38)]) ∧
    ((initial_state 0x77).temperature = (initial_state 0x77).temperature ∧
      (initial_state 0x77).pressure = (initial_state 0x77).pressure ∧
      (initial_state 0x77).time = (initial_state 0x77).time) :=
  ⟨rfl, do_measure_fault_keeps_measurement (initial_state 0x77) 0 [.fault]
    (initial_state 0x77) [(REG_CTRL_MEAS, 38)] rfl⟩

/-- C9: every `do_measure` run performs at most one register write, and
when the tracked mode is not FORCED (in particular in NORMAL mode) it
performs none: the only device-visible mutation is the step-1 forced
trigger. -/
theorem do_measure_write_discipline (st : Bmp280) (now : ℚ) (resps : List Resp) :
    (do_measure st now resps).2.length ≤ 1 ∧
    (st.power_mode ≠ MODE_FORCED → (do_measure st now resps).2 = []) := by
  unfold do_measure
  by_cases hm : st.power_mode = MODE_FORCED
  · rw [if_pos hm]
    refine ⟨?_, fun h => absurd hm h⟩
    repeat' split
    all_goals simp [measure_tail_writes]
  · rw [if_neg hm]
    exact ⟨by simp [measure_tail_writes], fun _ => by simp [measure_tail_writes]⟩

/-- C9 witness: in NORMAL mode a run issues no writes, and the run's
write count is at most one. -/
theorem do_measure_write_discipline_witness :
    (do_measure { initial_state 0x77 with power_mode := MODE_NORMAL } 0 []).2.length ≤ 1 ∧
    (do_measure { initial_state 0x77 with power_mode := MODE_NORMAL } 0 []).2 = [] :=
  ⟨(do_measure_write_discipline _ 0 []).1,
    (do_measure_write_discipline _ 0 []).2 (by decide)⟩

/-- C10: the tracked power mode is FORCED at construction, and every
operation keeps it in {FORCED, NORMAL}: set_mode only commits validated
modes, while initialization and measurement never touch it. -/
theorem power_mode_invariant :
    (∀ a, (initial_state a).power_mode = MODE_FORCED) ∧
    (∀ st m, st.power_mode = MODE_FORCED ∨ st.power_mode = MODE_NORMAL →
      ((set_mode st m).1.power_mode = MODE_FORCED ∨
        (set_mode st m).1.power_mode = MODE_NORMAL)) ∧
    (∀ st resps st₁ w e,
      initialize_chip st resps = (.ok st₁, w) ∨
        initialize_chip st resps = (.err e st₁, w) ∨
        initialize_chip st resps = (.fault st₁, w) →
      st₁.power_mode = st.power_mode) ∧
    (∀ st now resps st₁ w,
      do_measure st now resps = (.ok st₁, w) ∨
        do_measure st now resps = (.fault st₁, w) →
      st₁.power_mode = st.power_mode) := by
  refine ⟨fun a => rfl, ?_, ?_, ?_⟩
  · intro st m hpm
    unfold set_mode
    split_ifs with h1 h2 h3
    · exact hpm
    · left; simp [h2]
    · right; simp [h3]
    · exact hpm
  · intro st resps st₁ w e h
    unfold initialize_chip at h
    rcases h with h | h | h <;> (repeat' split at h) <;> (cases h <;> simp)
  · intro st now resps st₁ w h
    unfold do_measure at h
    by_cases hm : st.power_mode = MODE_FORCED
    · rw [if_pos hm] at h
      rcases h with h | h <;> (repeat' split at h) <;>
        first
          | exact measure_tail_power _ _ _ _ _ _ (Or.inl h)
          | exact measure_tail_power _ _ _ _ _ _ (Or.inr h)
          | (cases h <;> simp)
    · rw [if_neg hm] at h
      rcases h with h | h
      · exact measure_tail_power _ _ _ _ _ _ (Or.inl h)
      · exact measure_tail_power _ _ _ _ _ _ (Or.inr h)

/-- C10 witness: the invariant instantiated at the constructor state:
construction starts FORCED, a SLEEP request leaves the mode in the set,
and a faulting measurement run preserves it. -/
theorem power_mode_invariant_witness :
    (initial_state 0x77).power_mode = MODE_FORCED ∧
    ((set_mode (initial_state 0x77) MODE_SLEEP).1.power_mode = MODE_FORCED ∨
      (set_mode (initial_state 0x77) MODE_SLEEP).1.power_mode = MODE_NORMAL) ∧
    (initial_state 0x77).power_mode = (initial_state 0x77).power_mode :=
  ⟨power_mode_invariant.1 0x77,
    power_mode_invariant.2.1 (initial_state 0x77) MODE_SLEEP
      (Or.inl (power_mode_invariant.1 0x77)),
    power_mode_invariant.2.2.2 (initial_state 0x77) 0 [.fault]
      (initial_state 0x77) [(REG_CTRL_MEAS, 38)] (Or.inr rfl)⟩
